import Mathlib

/-!
Verification development for the `hxform` coordinate-transform wrapper
(`src/hxform/hxform.py`).

The Python source is shallowly embedded below.  Discrete logic (shape
dispatch, time normalization, broadcasting, error raising) is embedded as
executable Lean functions over `List ℤ` / `List ℚ`.  Floating-point numeric
kernels (the external Fortran backend `geopack_08_dp.transform`, the external
SpacePy conversion, and the columnwise trigonometric conversions as used
inside `transform`) are passed as explicit function parameters bundled in
`Backends`, since they are external collaborators resp. real-valued; the
real-valued conversions `CtoS` / `StoC` and the MLT derivation are embedded
separately over `ℝ`.
-/

deriving instance DecidableEq for Except

namespace Hxform

/-- Python-level runtime errors raised by the code paths embedded here.
`valueError` models `raise ValueError(msg)`, `assertionError` models a failed
`assert`, `unboundLocal` models Python's `UnboundLocalError` when a local
variable (here `vp`) is referenced before assignment, and `indexError` models
an out-of-range NumPy index. -/
inductive PyErr where
  | valueError (msg : String)
  | assertionError
  | unboundLocal (nm : String)
  | indexError
  deriving DecidableEq

/-- The runtime container type of the caller's `v`, i.e. Python `type(v)`:
a NumPy `ndarray`, a `list`, or a `tuple`. -/
inductive Container where
  | nparray
  | pylist
  | pytuple
  deriving DecidableEq

/-- `np.array(v)` applied to a vector input: either a 1-D array holding one
3-vector (`len(v.shape) == 1`) or a 2-D array of rows. Entries are modelled
as rationals (Python floats). -/
inductive NpVecs where
  | one (row : List ℚ)
  | two (rows : List (List ℚ))
  deriving DecidableEq

/-- `np.array(time)` applied to a time input: a 1-D array holding one time
tuple of ≥3 integers, or a 2-D array of time rows. -/
inductive NpTime where
  | one (row : List ℤ)
  | two (rows : List (List ℤ))
  deriving DecidableEq

/-- The caller's `v` argument: its Python container type, whether `v[0]` is a
NumPy array (`isinstance(v[0], np.ndarray)`, line 133), and its value as seen
by `np.array(v)`. -/
structure VecIn where
  ctype : Container
  firstIsArray : Bool
  arr : NpVecs
  deriving DecidableEq

/-- The value returned by `transform` (lines 208-220): an `ndarray` (1-D or
2-D), a list of 1-D arrays, a flat list of numbers, a nested list
(`vp.tolist()` of a 2-D array), or a list of scalars (the `list_of_arrays`
re-typing applied to a 1-D `vp`). -/
inductive PyOut where
  | ndarr1 (row : List ℚ)
  | ndarr2 (rows : List (List ℚ))
  | arrList (rows : List (List ℚ))
  | numList (row : List ℚ)
  | listList (rows : List (List ℚ))
  | scalarList (row : List ℚ)
  deriving DecidableEq

/-- `tpad(time, length)` (lines 4-34) on the list representation: asserts
`len(time) > 2`, truncates to `length` if longer, else right-pads with zeros.
(The source also restores the input container kind, which is irrelevant to
the claims treated here and omitted from this list-level embedding.) -/
def tpad (t : List ℤ) (len : Nat) : Except PyErr (List ℤ) :=
  if t.length ≤ 2 then Except.error PyErr.assertionError
  else if len < t.length then Except.ok (t.take len)
  else Except.ok (t ++ List.replicate (len - t.length) 0)

/-- `True` iff `y` is a Gregorian leap year, as used by Python `datetime`. -/
def isLeap (y : ℤ) : Bool :=
  (y % 4 == 0 && y % 100 != 0) || y % 400 == 0

/-- The lengths of the twelve months of year `y`. -/
def monthLengths (y : ℤ) : List ℤ :=
  [31, if isLeap y then 29 else 28, 31, 30, 31, 30, 31, 31, 30, 31, 30, 31]

/-- Number of days in month `m` of year `y` (0 for an out-of-range month). -/
def daysInMonth (y m : ℤ) : ℤ :=
  (monthLengths y).getD (m - 1).toNat 0

/-- 1-based day of the year of `(y, m, d)`:
`datetime(y, m, d, ...).timetuple().tm_yday`. -/
def dayOfYear (y m d : ℤ) : ℤ :=
  ((monthLengths y).take (m - 1).toNat).sum + d

/-- `to_doy(t)` (lines 37-46): pads/truncates to 6 fields
`[y, m, d, h, min, sec]`, builds `datetime(*t)` (which validates every field
and raises `ValueError` on an invalid date/time), and returns
`[y, day_of_year, h, min, sec]`. -/
def to_doy (t : List ℤ) : Except PyErr (List ℤ) := do
  let t6 ← tpad t 6
  let y := t6.getD 0 0
  let m := t6.getD 1 0
  let d := t6.getD 2 0
  let h := t6.getD 3 0
  let mi := t6.getD 4 0
  let s := t6.getD 5 0
  if 1 ≤ y ∧ y ≤ 9999 ∧ 1 ≤ m ∧ m ≤ 12 ∧ 1 ≤ d ∧ d ≤ daysInMonth y m
      ∧ 0 ≤ h ∧ h ≤ 23 ∧ 0 ≤ mi ∧ mi ≤ 59 ∧ 0 ≤ s ∧ s ≤ 59 then
    Except.ok [y, dayOfYear y m d, h, mi, s]
  else
    Except.error (PyErr.valueError "invalid datetime")

/-- Python `int(x)` for a real (here rational) argument: truncation toward
zero. -/
def pyInt (x : ℚ) : ℤ :=
  if 0 ≤ x then ⌊x⌋ else ⌈x⌉

/-- Python 3 `round(x)` for a real (here rational) argument: nearest integer,
ties to even. -/
def pyRound (x : ℚ) : ℤ :=
  let f := ⌊x⌋
  let frac := x - f
  if frac < 1/2 then f
  else if 1/2 < frac then f + 1
  else if f % 2 = 0 then f else f + 1

/-- `UTtoHMS(UT, **kwargs)` (lines 344-375): fractional hours to integer
`[hour, minutes, seconds]` with carry, raising `ValueError` outside
`[0, 24]`, and collapsing a rounded-up 24 to `[0,0,0]` unless `keep24`. -/
def UTtoHMS (UT : ℚ) (keep24 : Bool) : Except PyErr (List ℤ) :=
  if UT > 24 ∨ UT < 0 then
    Except.error (PyErr.valueError "Required: 0 <= UT <= 24.")
  else
    let hours : ℤ := pyInt UT
    let minutes : ℤ := pyInt ((UT - hours) * 60)
    let seconds : ℤ := pyRound ((UT - hours - (minutes : ℚ) / 60) * 3600)
    let seconds2 : ℤ := if seconds = 60 then 0 else seconds
    let minutes2 : ℤ := if seconds = 60 then minutes + 1 else minutes
    let minutes3 : ℤ := if minutes2 = 60 then 0 else minutes2
    let hours2 : ℤ := if minutes2 = 60 then hours + 1 else hours
    if hours2 = 24 ∧ keep24 = false then Except.ok [0, 0, 0]
    else Except.ok [hours2, minutes3, seconds2]

/-- Zero-pad the decimal digits of `n : ℕ` to width `w`. -/
def padz (w : Nat) (n : Nat) : String :=
  let s := toString n
  String.mk (List.replicate (w - s.length) '0') ++ s

/-- Python `'%0wd' % n`: zero-padded decimal with the sign counted in the
width. -/
def pad0 (w : Nat) (n : ℤ) : String :=
  if n < 0 then "-" ++ padz (w - 1) n.natAbs else padz w n.natAbs

/-- `'%04d-%02d-%02dT%02d:%02d:%02d' % tuple(...)` (lines 196, 200) applied
to a 6-field time row. -/
def fmtTime (t : List ℤ) : String :=
  pad0 4 (t.getD 0 0) ++ "-" ++ pad0 2 (t.getD 1 0) ++ "-" ++ pad0 2 (t.getD 2 0)
    ++ "T" ++ pad0 2 (t.getD 3 0) ++ ":" ++ pad0 2 (t.getD 4 0) ++ ":" ++ pad0 2 (t.getD 5 0)

/-- Lines 139-141: `True` iff both `np.array`s are 2-D and their first
dimensions differ, in which case `transform` raises
`ValueError("t and v cannot be different lengths")`. -/
def shapeMismatch (tarr : NpTime) (varr : NpVecs) : Bool :=
  match tarr, varr with
  | NpTime.two trows, NpVecs.two vrows => trows.length != vrows.length
  | _, _ => false

/-- The external numeric collaborators of `transform`, passed as parameters:
`geo` is the Fortran entry point `geopack_08_dp.transform(v, trans, dtime,
outsize)` (line 167); `stoCv` / `ctoSv` are the columnwise float evaluations
of `StoC` / `CtoS` on a 2-D batch (lines 165, 170; their real-valued
definitions are embedded separately below); `sp` is the SpacePy conversion
`sc.Coords(v, csys_in, ctype_in)` + `Ticktock(t_str)` + `convert(csys_out,
ctype_out)).data` (lines 192-206). -/
structure Backends where
  geo : List (List ℚ) → String → List (List ℤ) → Nat → List (List ℚ)
  stoCv : List (List ℚ) → List (List ℚ)
  ctoSv : List (List ℚ) → List (List ℚ)
  sp : List (List ℚ) → String → String → List String → String → String → List (List ℚ)

/-- The local state of `transform` after a backend branch: the current
shapes/values of the locals `t` and `v`, and the local `vp` (`none` while
still unassigned; the branches only ever assign a 2-D array). -/
structure BranchState where
  tarr : NpTime
  varr : NpVecs
  vp : Option (List (List ℚ))
  deriving DecidableEq

/-- Lines 143-170, the `lib == 'geopack_08_dp'` branch: reshape `v` and `t`
to 2-D, build `dtime` (for a 1-D `t` by `to_doy(t[0])` on the full row, line
151; for a 2-D `t` per row by `to_doy(tpad(t[i,0:5], length=5))`, lines
153-156), compute `outsize`, apply the spherical-input conversion in place,
call the backend, and apply the spherical-output conversion. -/
def geopackBranch (B : Backends) (varr : NpVecs) (tarr : NpTime)
    (trans : String) (ctype_in ctype_out : String) : Except PyErr BranchState := do
  let vrows := match varr with
    | NpVecs.one r => [r]
    | NpVecs.two rs => rs
  let td ← match tarr with
    | NpTime.one r => do
        let d ← to_doy r
        pure ([r], [d])
    | NpTime.two rs => do
        let ds ← rs.mapM (fun row => do to_doy (← tpad (row.take 5) 5))
        pure (rs, ds)
  let trows := td.1
  let dtime := td.2
  let outsize := if vrows.length ≤ trows.length then trows.length else vrows.length
  let vrows2 := if ctype_in == "sph" then B.stoCv vrows else vrows
  let out := B.geo vrows2 trans dtime outsize
  let out2 := if ctype_out == "sph" then B.ctoSv out else out
  pure ⟨NpTime.two trows, NpVecs.two vrows2, some out2⟩

/-- Lines 172-206, the `lib == 'spacepy'` branch: `repmat` the 1-D side
against a 2-D side (lines 185-188), wrap a still-1-D `v` (lines 189-190),
build the ISO time strings with `tpad(..., length=6)` (lines 194-201), and
obtain the converted data from SpacePy. -/
def spacepyBranch (B : Backends) (varr : NpVecs) (tarr : NpTime)
    (csys_in csys_out : String) (ctype_in ctype_out : String) :
    Except PyErr BranchState := do
  let tarr1 := match tarr, varr with
    | NpTime.one trow, NpVecs.two vrows => NpTime.two (List.replicate vrows.length trow)
    | t, _ => t
  let varr1 := match varr, tarr1 with
    | NpVecs.one vrow, NpTime.two trows => NpVecs.two (List.replicate trows.length vrow)
    | vv, _ => vv
  let varr2 := match varr1 with
    | NpVecs.one r => NpVecs.two [r]
    | vv => vv
  let t_str ← match tarr1 with
    | NpTime.one r => do pure [fmtTime (← tpad r 6)]
    | NpTime.two rs => rs.mapM (fun row => do pure (fmtTime (← tpad row 6)))
  let vrows := match varr2 with
    | NpVecs.one r => [r]
    | NpVecs.two rs => rs
  pure ⟨tarr1, varr2, some (B.sp vrows csys_in ctype_in t_str csys_out ctype_out)⟩

/-- Lines 208-220: unwrap `vp[0, :]` when both locals `t` and `v` are (still)
1-D, then re-type the result from `in_type` and `list_of_arrays`.  Any use of
a still-unassigned `vp` raises `UnboundLocalError`. -/
def finishOut (in_type : Container) (loa : Bool) (st : BranchState) :
    Except PyErr PyOut := do
  let tIs1 := match st.tarr with
    | NpTime.one _ => true
    | NpTime.two _ => false
  let vIs1 := match st.varr with
    | NpVecs.one _ => true
    | NpVecs.two _ => false
  let vpFinal : NpVecs ←
    if tIs1 && vIs1 then
      match st.vp with
      | none => Except.error (PyErr.unboundLocal "vp")
      | some [] => Except.error PyErr.indexError
      | some (r :: _) => pure (NpVecs.one r)
    else
      match st.vp with
      | none => Except.error (PyErr.unboundLocal "vp")
      | some rows => pure (NpVecs.two rows)
  if in_type == Container.nparray then
    pure (match vpFinal with
      | NpVecs.one r => PyOut.ndarr1 r
      | NpVecs.two rs => PyOut.ndarr2 rs)
  else if loa then
    pure (match vpFinal with
      | NpVecs.one r => PyOut.scalarList r
      | NpVecs.two rs => PyOut.arrList rs)
  else
    pure (match vpFinal with
      | NpVecs.one r => PyOut.numList r
      | NpVecs.two rs => PyOut.listList rs)

/-- `transform(v, time, csys_in, csys_out, ctype_in, ctype_out, lib)`
(lines 49-220): record `in_type` and `list_of_arrays`, check the 2-D shape
mismatch, run the branch selected by `lib` (leaving `vp` unassigned for an
unrecognized `lib`), and re-shape/re-type the result. -/
def transform (B : Backends) (v : VecIn) (time : NpTime)
    (csys_in csys_out : String) (ctype_in ctype_out : String) (lib : String) :
    Except PyErr PyOut :=
  let list_of_arrays := v.firstIsArray && (v.ctype == Container.pylist)
  if shapeMismatch time v.arr then
    Except.error (PyErr.valueError "t and v cannot be different lengths")
  else do
    let st ←
      if lib == "geopack_08_dp" then
        geopackBranch B v.arr time (csys_in ++ "to" ++ csys_out) ctype_in ctype_out
      else if lib == "spacepy" then
        spacepyBranch B v.arr time csys_in csys_out ctype_in ctype_out
      else
        pure ⟨time, v.arr, none⟩
    finishOut v.ctype list_of_arrays st

/-- Line 223: `MAGtoGEI(v, time, ...)` forwards to `transform(v, time,
'MAG', 'GEI', ...)`. -/
def MAGtoGEI (B : Backends) (v : VecIn) (time : NpTime) (ci co lib : String) :
    Except PyErr PyOut := transform B v time "MAG" "GEI" ci co lib

/-- Line 227: forwards to `transform(v, time, 'MAG', 'GEO', ...)`. -/
def MAGtoGEO (B : Backends) (v : VecIn) (time : NpTime) (ci co lib : String) :
    Except PyErr PyOut := transform B v time "MAG" "GEO" ci co lib

/-- Line 231: forwards to `transform(v, time, 'MAG', 'GSE', ...)`. -/
def MAGtoGSE (B : Backends) (v : VecIn) (time : NpTime) (ci co lib : String) :
    Except PyErr PyOut := transform B v time "MAG" "GSE" ci co lib

/-- Line 235: forwards to `transform(v, time, 'MAG', 'GSM', ...)`. -/
def MAGtoGSM (B : Backends) (v : VecIn) (time : NpTime) (ci co lib : String) :
    Except PyErr PyOut := transform B v time "MAG" "GSM" ci co lib

/-- Line 239: forwards to `transform(v, time, 'MAG', 'SM', ...)`. -/
def MAGtoSM (B : Backends) (v : VecIn) (time : NpTime) (ci co lib : String) :
    Except PyErr PyOut := transform B v time "MAG" "SM" ci co lib

/-- Line 244: forwards to `transform(v, time, 'GEO', 'MAG', ...)`. -/
def GEOtoMAG (B : Backends) (v : VecIn) (time : NpTime) (ci co lib : String) :
    Except PyErr PyOut := transform B v time "GEO" "MAG" ci co lib

/-- Line 248: forwards to `transform(v, time, 'GEO', 'GEI', ...)`. -/
def GEOtoGEI (B : Backends) (v : VecIn) (time : NpTime) (ci co lib : String) :
    Except PyErr PyOut := transform B v time "GEO" "GEI" ci co lib

/-- Line 252: forwards to `transform(v, time, 'GEI', 'GEO', ...)` (its
docstring at line 253 misstates the frame order, but the call is
`'GEI', 'GEO'`). -/
def GEItoGEO (B : Backends) (v : VecIn) (time : NpTime) (ci co lib : String) :
    Except PyErr PyOut := transform B v time "GEI" "GEO" ci co lib

/-- Line 256: forwards to `transform(v, time, 'GEO', 'GSE', ...)`. -/
def GEOtoGSE (B : Backends) (v : VecIn) (time : NpTime) (ci co lib : String) :
    Except PyErr PyOut := transform B v time "GEO" "GSE" ci co lib

/-- Line 260: forwards to `transform(v, time, 'GEO', 'GSM', ...)`. -/
def GEOtoGSM (B : Backends) (v : VecIn) (time : NpTime) (ci co lib : String) :
    Except PyErr PyOut := transform B v time "GEO" "GSM" ci co lib

/-- Line 264: forwards to `transform(v, time, 'GEO', 'SM', ...)`. -/
def GEOtoSM (B : Backends) (v : VecIn) (time : NpTime) (ci co lib : String) :
    Except PyErr PyOut := transform B v time "GEO" "SM" ci co lib

/-- Line 269: forwards to `transform(v, time, 'GSE', 'MAG', ...)`. -/
def GSEtoMAG (B : Backends) (v : VecIn) (time : NpTime) (ci co lib : String) :
    Except PyErr PyOut := transform B v time "GSE" "MAG" ci co lib

/-- Line 273: forwards to `transform(v, time, 'GSE', 'GEI', ...)`. -/
def GSEtoGEI (B : Backends) (v : VecIn) (time : NpTime) (ci co lib : String) :
    Except PyErr PyOut := transform B v time "GSE" "GEI" ci co lib

/-- Line 277: forwards to `transform(v, time, 'GSE', 'GEO', ...)`. -/
def GSEtoGEO (B : Backends) (v : VecIn) (time : NpTime) (ci co lib : String) :
    Except PyErr PyOut := transform B v time "GSE" "GEO" ci co lib

/-- Line 281: forwards to `transform(v, time, 'GSE', 'SM', ...)`. -/
def GSEtoSM (B : Backends) (v : VecIn) (time : NpTime) (ci co lib : String) :
    Except PyErr PyOut := transform B v time "GSE" "SM" ci co lib

/-- Line 286: forwards to `transform(v, time, 'GSM', 'MAG', ...)`. -/
def GSMtoMAG (B : Backends) (v : VecIn) (time : NpTime) (ci co lib : String) :
    Except PyErr PyOut := transform B v time "GSM" "MAG" ci co lib

/-- Line 290: forwards to `transform(v, time, 'GSM', 'GEI', ...)`. -/
def GSMtoGEI (B : Backends) (v : VecIn) (time : NpTime) (ci co lib : String) :
    Except PyErr PyOut := transform B v time "GSM" "GEI" ci co lib

/-- Line 294: forwards to `transform(v, time, 'GSM', 'GEO', ...)`. -/
def GSMtoGEO (B : Backends) (v : VecIn) (time : NpTime) (ci co lib : String) :
    Except PyErr PyOut := transform B v time "GSM" "GEO" ci co lib

/-- Line 298: forwards to `transform(v, time, 'GSM', 'GSE', ...)`. -/
def GSMtoGSE (B : Backends) (v : VecIn) (time : NpTime) (ci co lib : String) :
    Except PyErr PyOut := transform B v time "GSM" "GSE" ci co lib

/-- Line 302: forwards to `transform(v, time, 'GSM', 'SM', ...)`. -/
def GSMtoSM (B : Backends) (v : VecIn) (time : NpTime) (ci co lib : String) :
    Except PyErr PyOut := transform B v time "GSM" "SM" ci co lib

/-- Line 307: forwards to `transform(v, time, 'SM', 'MAG', ...)`. -/
def SMtoMAG (B : Backends) (v : VecIn) (time : NpTime) (ci co lib : String) :
    Except PyErr PyOut := transform B v time "SM" "MAG" ci co lib

/-- Line 311: forwards to `transform(v, time, 'SM', 'GEI', ...)`. -/
def SMtoGEI (B : Backends) (v : VecIn) (time : NpTime) (ci co lib : String) :
    Except PyErr PyOut := transform B v time "SM" "GEI" ci co lib

/-- Line 315: forwards to `transform(v, time, 'SM', 'GEO', ...)`. -/
def SMtoGEO (B : Backends) (v : VecIn) (time : NpTime) (ci co lib : String) :
    Except PyErr PyOut := transform B v time "SM" "GEO" ci co lib

/-- Line 319: forwards to `transform(v, time, 'SM', 'GSE', ...)`. -/
def SMtoGSE (B : Backends) (v : VecIn) (time : NpTime) (ci co lib : String) :
    Except PyErr PyOut := transform B v time "SM" "GSE" ci co lib

/-- Line 323: forwards to `transform(v, time, 'SM', 'GSM', ...)`. -/
def SMtoGSM (B : Backends) (v : VecIn) (time : NpTime) (ci co lib : String) :
    Except PyErr PyOut := transform B v time "SM" "GSM" ci co lib

/-- The names of the `<F1>to<F2>` alias functions module-level-defined in the
source at lines 223-325, in source order, paired with the `(csys_in,
csys_out)` arguments each one passes to `transform`.  These 25 entries are
the complete set of such aliases in the source file. -/
def aliasTable : List (String × String × String) :=
  [("MAGtoGEI", "MAG", "GEI"), ("MAGtoGEO", "MAG", "GEO"),
   ("MAGtoGSE", "MAG", "GSE"), ("MAGtoGSM", "MAG", "GSM"),
   ("MAGtoSM", "MAG", "SM"), ("GEOtoMAG", "GEO", "MAG"),
   ("GEOtoGEI", "GEO", "GEI"), ("GEItoGEO", "GEI", "GEO"),
   ("GEOtoGSE", "GEO", "GSE"), ("GEOtoGSM", "GEO", "GSM"),
   ("GEOtoSM", "GEO", "SM"), ("GSEtoMAG", "GSE", "MAG"),
   ("GSEtoGEI", "GSE", "GEI"), ("GSEtoGEO", "GSE", "GEO"),
   ("GSEtoSM", "GSE", "SM"), ("GSMtoMAG", "GSM", "MAG"),
   ("GSMtoGEI", "GSM", "GEI"), ("GSMtoGEO", "GSM", "GEO"),
   ("GSMtoGSE", "GSM", "GSE"), ("GSMtoSM", "GSM", "SM"),
   ("SMtoMAG", "SM", "MAG"), ("SMtoGEI", "SM", "GEI"),
   ("SMtoGEO", "SM", "GEO"), ("SMtoGSE", "SM", "GSE"),
   ("SMtoGSM", "SM", "GSM")]

/-- The names of the source's alias functions. -/
def aliasNames : List String := aliasTable.map Prod.fst

/-- The six supported frame names. -/
def frameNames : List String := ["MAG", "GEI", "GEO", "GSE", "GSM", "SM"]

/-- `np.atan2(y, x)`: the argument of the complex number `x + i y`, with
range `(-π, π]` and `atan2 0 0 = 0`. -/
noncomputable def atan2 (y x : ℝ) : ℝ :=
  Complex.arg ⟨x, y⟩

/-- `CtoS(x, y, z)` (lines 328-334): cartesian to spherical, returning
`(r, 90 - (180/π)·acos(z/r), (180/π)·atan2(y, x))` — the second component is
the *latitude* in degrees. -/
noncomputable def CtoS (x y z : ℝ) : ℝ × ℝ × ℝ :=
  (Real.sqrt (x ^ 2 + y ^ 2 + z ^ 2),
   90 - 180 / Real.pi * Real.arccos (z / Real.sqrt (x ^ 2 + y ^ 2 + z ^ 2)),
   180 / Real.pi * atan2 y x)

/-- `StoC(r, colat, long)` (lines 336-341), exactly as written in the
source:
`x = r·cos((π/180)·long)·cos((π/180)·colat)`,
`y = r·sin((π/180)·long)·cos((π/180)·colat)`,
`z = r·cos(π/2 - (π/180)·colat)`. -/
noncomputable def StoC (r colat long : ℝ) : ℝ × ℝ × ℝ :=
  (r * Real.cos (Real.pi / 180 * long) * Real.cos (Real.pi / 180 * colat),
   r * Real.sin (Real.pi / 180 * long) * Real.cos (Real.pi / 180 * colat),
   r * Real.cos (Real.pi / 2 - Real.pi / 180 * colat))

/-- Modelled from the spec: the "standard colatitude-convention" formulas the
spec asserts for `spherical_to_cartesian`, namely
`x = r·sin(colat)·cos(long)`, `y = r·sin(colat)·sin(long)`,
`z = r·cos(colat)` with both angles in degrees.  Stated only to be compared
against the source's `StoC`. -/
noncomputable def StoC_colatSpec (r colat long : ℝ) : ℝ × ℝ × ℝ :=
  (r * Real.sin (Real.pi / 180 * colat) * Real.cos (Real.pi / 180 * long),
   r * Real.sin (Real.pi / 180 * colat) * Real.sin (Real.pi / 180 * long),
   r * Real.cos (Real.pi / 180 * colat))

/-- Lines 443-451 of `MAGtoMLT` for one entry: wrap `delta` by subtracting
`2π` where `delta > π` (first masked update), then adding `2π` where the
updated value is `≤ -π` (second masked update), and map to hours by
`12 + delta·24/(2π)`. -/
noncomputable def mltWrap (delta : ℝ) : ℝ :=
  let d1 := if delta > Real.pi then delta - 2 * Real.pi else delta
  let d2 := if d1 ≤ -Real.pi then d1 + 2 * Real.pi else d1
  12 + d2 * 24 / (2 * Real.pi)

/-- `MAGtoMLT` (lines 378-452) for a single entry, as a function of the
position's magnetic longitude `phi` (line 424 or 427) and the subsolar
magnetic longitude `phi_cds = atan2` of the external `transform(np.array([1,
0, 0]), time, 'GSM', 'MAG')` result (lines 431-436): `delta = phi - phi_cds`
wrapped and mapped to hours. -/
noncomputable def MAGtoMLT_core (phi phi_cds : ℝ) : ℝ :=
  mltWrap (phi - phi_cds)

/-- A NumPy array buffer in the heap model: a batch of rows. -/
abbrev Cell := List (List ℚ)

/-- The Python heap restricted to the array buffers relevant to `transform`:
a list of buffers addressed by index. -/
abbrev Heap := List Cell

/-- Read the buffer at address `r` (empty for a dangling address). -/
def readC (h : Heap) (r : Nat) : Cell :=
  h.getD r []

/-- Overwrite the buffer at address `r` in place. -/
def writeC (h : Heap) (r : Nat) (c : Cell) : Heap :=
  h.set r c

/-- Heap-level model of the `geopack_08_dp` path of `transform` (lines
130-170), making buffer allocation and in-place writes explicit in order to
track mutation.  `vref` / `tref` are the addresses of the caller's `v` and
`time` buffers and `vIs1` / `tIs1` their 1-D-ness; `doyB` is the pure
per-row day-of-year encoding of lines 149-156 (it only reads `t`).
`np.array(v)` and `np.array(time)` allocate fresh copies (NumPy copies by
default); `np.array([v])` and `np.array([t])` allocate again; the
`ctype_in == 'sph'` conversion (line 165) writes columns of the local `v`
buffer in place; the backend result is a fresh buffer, which the
`ctype_out == 'sph'` conversion (line 170) overwrites in place.  Returns the
final heap and the address of `vp`. -/
def transformHeap (B : Backends) (doyB : Cell → List (List ℤ)) (h0 : Heap)
    (vref tref : Nat) (vIs1 tIs1 : Bool) (trans : String)
    (ctype_in ctype_out : String) : Heap × Except PyErr Nat :=
  let h1 := h0 ++ [readC h0 vref]
  let vloc := h0.length
  let h2 := h1 ++ [readC h1 tref]
  let tloc := h1.length
  if !vIs1 && !tIs1 && (readC h2 tloc).length != (readC h2 vloc).length then
    (h2, Except.error (PyErr.valueError "t and v cannot be different lengths"))
  else
    let h3 := if vIs1 then h2 ++ [readC h2 vloc] else h2
    let vloc2 := if vIs1 then h2.length else vloc
    let h4 := if tIs1 then h3 ++ [readC h3 tloc] else h3
    let tloc2 := if tIs1 then h3.length else tloc
    let dtime := doyB (readC h4 tloc2)
    let nv := (readC h4 vloc2).length
    let nt := (readC h4 tloc2).length
    let outsize := if nv ≤ nt then nt else nv
    let h5 := if ctype_in == "sph" then writeC h4 vloc2 (B.stoCv (readC h4 vloc2)) else h4
    let h6 := h5 ++ [B.geo (readC h5 vloc2) trans dtime outsize]
    let vploc := h5.length
    let h7 := if ctype_out == "sph" then writeC h6 vploc (B.ctoSv (readC h6 vploc)) else h6
    (h7, Except.ok vploc)

/-- A concrete instantiation of the external collaborators, used to evaluate
the embedded `transform` on concrete inputs: the Fortran backend returns
`outsize` copies of `[1, 2, 3]`, the columnwise conversions are the identity,
and SpacePy echoes its vector batch. -/
def testB : Backends :=
  ⟨fun _ _ _ n => List.replicate n [1, 2, 3], id, id, fun rows _ _ _ _ _ => rows⟩

/-- A second concrete instantiation whose Fortran backend echoes the `dtime`
batch it receives, exposing the epoch encoding that `transform` built. -/
def echoB : Backends :=
  ⟨fun _ _ dtime _ => dtime.map (fun r => r.map (fun zz => (zz : ℚ))), id, id,
   fun rows _ _ _ _ _ => rows⟩

/-- C9: `UTtoHMS` maps fractional hours to integer `[hour, minute, second]`
with carry: `UTtoHMS 12 = [12,0,0]`, `UTtoHMS 24 = [0,0,0]`,
`UTtoHMS 24 keep24 = [24,0,0]`, and every `UT` outside `[0, 24]` raises
`ValueError`. -/
theorem UTtoHMS_spec :
    UTtoHMS 12 false = Except.ok [12, 0, 0] ∧
    UTtoHMS 24 false = Except.ok [0, 0, 0] ∧
    UTtoHMS 24 true = Except.ok [24, 0, 0] ∧
    ∀ u : ℚ, ∀ k : Bool, (u < 0 ∨ 24 < u) →
      UTtoHMS u k = Except.error (PyErr.valueError "Required: 0 <= UT <= 24.") := by
  refine ⟨by norm_num [UTtoHMS, pyInt, pyRound], by norm_num [UTtoHMS, pyInt, pyRound],
    by norm_num [UTtoHMS, pyInt, pyRound], ?_⟩
  intro u k h
  unfold UTtoHMS
  rw [if_pos]
  rcases h with h | h
  · exact Or.inr h
  · exact Or.inl h

/-- Witness for C9 at the concrete out-of-range input `UT = 25`. -/
theorem UTtoHMS_spec_witness :
    ((25 : ℚ) < 0 ∨ (24 : ℚ) < 25) ∧
    UTtoHMS 25 false = Except.error (PyErr.valueError "Required: 0 <= UT <= 24.") :=
  ⟨Or.inr (by norm_num), UTtoHMS_spec.2.2.2 25 false (Or.inr (by norm_num))⟩

/-- C1: evaluating `transform` on a single un-batched 3-vector and a single
un-batched time tuple (default backend).  The locals `v` and `t` are rebound
to 2-D arrays at lines 147-150, so the unwrap condition at line 208 is never
true and the call returns a batch of length 1 (`[[1, 2, 3]]`), not the
single unwrapped row `[1, 2, 3]` that the spec and the source's own
docstring (lines 94-110) promise. -/
theorem transform_single_single_returns_batch :
    transform testB ⟨Container.pylist, false, NpVecs.one [0, 0, 1]⟩
        (NpTime.one [2000, 1, 1, 0, 0, 0]) "GSM" "GSE" "car" "car" "geopack_08_dp"
      = Except.ok (PyOut.listList [[1, 2, 3]]) := by
  decide

/-- C2: evaluating `transform` on two vectors with a 2-D epoch batch of one
row.  The check at lines 139-141 compares first dimensions whenever both
arrays are 2-D, so the length-1 epoch batch raises `ValueError` instead of
being broadcast, although the source's own docstring (line 70) permits
`(Nt, 3)` with `Nt = 1`. -/
theorem transform_unary_2d_batch_raises :
    transform testB ⟨Container.pylist, false, NpVecs.two [[1, 0, 0], [0, 1, 0]]⟩
        (NpTime.two [[2000, 1, 1]]) "GSM" "GSE" "car" "car" "geopack_08_dp"
      = Except.error (PyErr.valueError "t and v cannot be different lengths") := by
  decide

/-- C5: evaluating `transform` on a 2-D epoch batch of two rows carrying a
seconds field, with a backend that echoes the `dtime` batch it receives.
Line 155 slices each row to its first five fields (`t[i,0:5]`) before the
day-of-year conversion, so the seconds field (30) is dropped and replaced by
0, whereas `to_doy` applied to the full row preserves it. -/
theorem transform_2d_epoch_drops_seconds :
    transform echoB ⟨Container.pylist, false, NpVecs.two [[1, 0, 0], [0, 1, 0]]⟩
        (NpTime.two [[2000, 1, 1, 1, 1, 30], [2000, 1, 1, 1, 1, 30]])
        "GSM" "GSE" "car" "car" "geopack_08_dp"
      = Except.ok (PyOut.listList [[2000, 1, 1, 1, 0], [2000, 1, 1, 1, 0]]) ∧
    to_doy [2000, 1, 1, 1, 1, 30] = Except.ok [2000, 1, 1, 1, 30] := by
  constructor
  · decide
  · decide

/-- Counterexample for C7: the ordered pair `(GEI, MAG)` consists of two
distinct supported frames, yet the source defines no alias named
`"GEItoMAG"` (lines 223-325 enumerate the aliases collected in
`aliasTable`). -/
theorem alias_GEItoMAG_missing_cex :
    ("GEI" : String) ≠ "MAG" ∧ ("GEI" ++ "to" ++ "MAG") ∉ aliasNames := by
  decide

/-- C7 (amended): each of the 25 aliases the source does define forwards to
`transform` with its frame pair; the table is duplicate-free, every alias
name is `frame_in ++ "to" ++ frame_out`, and of the 30 ordered pairs of
distinct frames exactly the five pairs GEI→MAG, GEI→GSE, GEI→GSM, GEI→SM and
GSE→GSM have no alias. -/
theorem alias_surface_amended :
    (∀ B v t ci co l, MAGtoGEI B v t ci co l = transform B v t "MAG" "GEI" ci co l) ∧
    (∀ B v t ci co l, MAGtoGEO B v t ci co l = transform B v t "MAG" "GEO" ci co l) ∧
    (∀ B v t ci co l, MAGtoGSE B v t ci co l = transform B v t "MAG" "GSE" ci co l) ∧
    (∀ B v t ci co l, MAGtoGSM B v t ci co l = transform B v t "MAG" "GSM" ci co l) ∧
    (∀ B v t ci co l, MAGtoSM B v t ci co l = transform B v t "MAG" "SM" ci co l) ∧
    (∀ B v t ci co l, GEOtoMAG B v t ci co l = transform B v t "GEO" "MAG" ci co l) ∧
    (∀ B v t ci co l, GEOtoGEI B v t ci co l = transform B v t "GEO" "GEI" ci co l) ∧
    (∀ B v t ci co l, GEItoGEO B v t ci co l = transform B v t "GEI" "GEO" ci co l) ∧
    (∀ B v t ci co l, GEOtoGSE B v t ci co l = transform B v t "GEO" "GSE" ci co l) ∧
    (∀ B v t ci co l, GEOtoGSM B v t ci co l = transform B v t "GEO" "GSM" ci co l) ∧
    (∀ B v t ci co l, GEOtoSM B v t ci co l = transform B v t "GEO" "SM" ci co l) ∧
    (∀ B v t ci co l, GSEtoMAG B v t ci co l = transform B v t "GSE" "MAG" ci co l) ∧
    (∀ B v t ci co l, GSEtoGEI B v t ci co l = transform B v t "GSE" "GEI" ci co l) ∧
    (∀ B v t ci co l, GSEtoGEO B v t ci co l = transform B v t "GSE" "GEO" ci co l) ∧
    (∀ B v t ci co l, GSEtoSM B v t ci co l = transform B v t "GSE" "SM" ci co l) ∧
    (∀ B v t ci co l, GSMtoMAG B v t ci co l = transform B v t "GSM" "MAG" ci co l) ∧
    (∀ B v t ci co l, GSMtoGEI B v t ci co l = transform B v t "GSM" "GEI" ci co l) ∧
    (∀ B v t ci co l, GSMtoGEO B v t ci co l = transform B v t "GSM" "GEO" ci co l) ∧
    (∀ B v t ci co l, GSMtoGSE B v t ci co l = transform B v t "GSM" "GSE" ci co l) ∧
    (∀ B v t ci co l, GSMtoSM B v t ci co l = transform B v t "GSM" "SM" ci co l) ∧
    (∀ B v t ci co l, SMtoMAG B v t ci co l = transform B v t "SM" "MAG" ci co l) ∧
    (∀ B v t ci co l, SMtoGEI B v t ci co l = transform B v t "SM" "GEI" ci co l) ∧
    (∀ B v t ci co l, SMtoGEO B v t ci co l = transform B v t "SM" "GEO" ci co l) ∧
    (∀ B v t ci co l, SMtoGSE B v t ci co l = transform B v t "SM" "GSE" ci co l) ∧
    (∀ B v t ci co l, SMtoGSM B v t ci co l = transform B v t "SM" "GSM" ci co l) ∧
    aliasNames.length = 25 ∧
    aliasNames.Nodup ∧
    (aliasTable.all fun e => e.1 == e.2.1 ++ "to" ++ e.2.2) = true ∧
    ((frameNames.flatMap fun a => frameNames.map fun b => (a, b)).all fun p =>
      p.1 == p.2 || aliasNames.contains (p.1 ++ "to" ++ p.2)
        || [("GEI", "MAG"), ("GEI", "GSE"), ("GEI", "GSM"), ("GEI", "SM"),
            ("GSE", "GSM")].contains p) = true ∧
    ([("GEI", "MAG"), ("GEI", "GSE"), ("GEI", "GSM"), ("GEI", "SM"),
      ("GSE", "GSM")].all fun p => !aliasNames.contains (p.1 ++ "to" ++ p.2)) = true := by
  refine ⟨fun _ _ _ _ _ _ => rfl, fun _ _ _ _ _ _ => rfl, fun _ _ _ _ _ _ => rfl,
    fun _ _ _ _ _ _ => rfl, fun _ _ _ _ _ _ => rfl, fun _ _ _ _ _ _ => rfl,
    fun _ _ _ _ _ _ => rfl, fun _ _ _ _ _ _ => rfl, fun _ _ _ _ _ _ => rfl,
    fun _ _ _ _ _ _ => rfl, fun _ _ _ _ _ _ => rfl, fun _ _ _ _ _ _ => rfl,
    fun _ _ _ _ _ _ => rfl, fun _ _ _ _ _ _ => rfl, fun _ _ _ _ _ _ => rfl,
    fun _ _ _ _ _ _ => rfl, fun _ _ _ _ _ _ => rfl, fun _ _ _ _ _ _ => rfl,
    fun _ _ _ _ _ _ => rfl, fun _ _ _ _ _ _ => rfl, fun _ _ _ _ _ _ => rfl,
    fun _ _ _ _ _ _ => rfl, fun _ _ _ _ _ _ => rfl, fun _ _ _ _ _ _ => rfl,
    fun _ _ _ _ _ _ => rfl, by decide, by decide, by decide, by decide, by decide⟩

/-- Counterexample for C8: with the unrecognized backend name `"cxform"`,
`transform` fails with Python's accidental `UnboundLocalError` on the result
variable `vp` (raised at line 209 resp. 212/220), not with any deliberate
`UnsupportedBackend` error — the source contains no backend-name check at
all. -/
theorem transform_unknown_lib_nameerror_cex :
    transform testB ⟨Container.pylist, false, NpVecs.one [0, 0, 1]⟩
        (NpTime.one [2000, 1, 1]) "GSM" "GSE" "car" "car" "cxform"
      = Except.error (PyErr.unboundLocal "vp") := by
  decide

/-- C8 (amended): for every backend name that is neither
`'geopack_08_dp'` nor `'spacepy'`, `transform` always fails synchronously
and produces no partial result — with the shape-mismatch `ValueError` when
that check fires, and otherwise with an `UnboundLocalError` from referencing
the never-assigned local `vp`. -/
theorem transform_unknown_lib_fails (B : Backends) (v : VecIn) (time : NpTime)
    (cs1 cs2 ci co lib : String)
    (h1 : lib ≠ "geopack_08_dp") (h2 : lib ≠ "spacepy") :
    transform B v time cs1 cs2 ci co lib =
      (if shapeMismatch time v.arr then
        Except.error (PyErr.valueError "t and v cannot be different lengths")
      else Except.error (PyErr.unboundLocal "vp")) := by
  have e1 : (lib == "geopack_08_dp") = false := by
    simpa using h1
  have e2 : (lib == "spacepy") = false := by
    simpa using h2
  unfold transform
  rw [e1, e2]
  rcases v with ⟨ct, fia, varr⟩
  cases time <;> cases varr <;>
    simp [shapeMismatch, finishOut, Except.bind] <;>
    split <;> rfl

/-- Witness for C8 at the concrete backend name `"cxform"`. -/
theorem transform_unknown_lib_fails_witness :
    ("cxform" : String) ≠ "geopack_08_dp" ∧ ("cxform" : String) ≠ "spacepy" ∧
    transform testB ⟨Container.pylist, false, NpVecs.two [[0, 0, 1]]⟩
        (NpTime.one [2000, 1, 1]) "GSM" "GSE" "car" "car" "cxform"
      = Except.error (PyErr.unboundLocal "vp") := by
  refine ⟨by decide, by decide, ?_⟩
  have h := transform_unknown_lib_fails testB
    ⟨Container.pylist, false, NpVecs.two [[0, 0, 1]]⟩ (NpTime.one [2000, 1, 1])
    "GSM" "GSE" "car" "car" "cxform" (by decide) (by decide)
  simpa [shapeMismatch] using h

/-- Counterexample for C4: at `(r, colat, long) = (1, 0, 0)` the source's
`StoC` returns `(1, 0, 0)` — the latitude convention — whereas the
colatitude-convention formula the claim asserts returns `(0, 0, 1)`. -/
theorem StoC_not_colatitude_cex : StoC 1 0 0 ≠ StoC_colatSpec 1 0 0 := by
  intro h
  have h3 := congrArg (fun p : ℝ × ℝ × ℝ => p.2.2) h
  simp only [StoC, StoC_colatSpec, mul_zero, sub_zero, Real.cos_pi_div_two,
    Real.cos_zero, one_mul] at h3
  norm_num at h3

/-- C4 (amended): `StoC` interprets its second argument as *latitude* in
degrees: it returns `(r·cos(lat)·cos(long), r·cos(lat)·sin(long),
r·sin(lat))` (angles converted to radians), matching the `r, latitude,
longitude` convention documented for `ctype_in='sph'` at lines 82-84. -/
theorem StoC_latitude_convention (r lat long : ℝ) :
    StoC r lat long =
      (r * Real.cos (Real.pi / 180 * lat) * Real.cos (Real.pi / 180 * long),
       r * Real.cos (Real.pi / 180 * lat) * Real.sin (Real.pi / 180 * long),
       r * Real.sin (Real.pi / 180 * lat)) := by
  unfold StoC
  refine Prod.ext ?_ (Prod.ext ?_ ?_)
  · ring
  · ring
  · simp [Real.cos_pi_div_two_sub]

/-- Bounds for the hour mapping `12 + x·24/(2π)` when `x ∈ (-π, π]`. -/
theorem mlt_hours_bounds (x : ℝ) (hl : -Real.pi < x) (hu : x ≤ Real.pi) :
    0 < 12 + x * 24 / (2 * Real.pi) ∧ 12 + x * 24 / (2 * Real.pi) ≤ 24 := by
  have hpi := Real.pi_pos
  have hx : x * 24 / (2 * Real.pi) = x * 12 / Real.pi := by
    field_simp
    ring
  rw [hx]
  constructor
  · have h12 : (-12 : ℝ) < x * 12 / Real.pi := by
      rw [lt_div_iff₀ hpi]
      nlinarith
    linarith
  · have h12 : x * 12 / Real.pi ≤ 12 := by
      rw [div_le_iff₀ hpi]
      nlinarith
    linarith

/-- Counterexample for C6: with `phi = π` (which lies in `(-π, π]`) and
subsolar longitude `phi_cds = 0`, `delta = π` is left unchanged by both
masked updates and the returned MLT is exactly `24`, which is outside the
claimed half-open interval `[0, 24)`. -/
theorem MAGtoMLT_attains_24_cex :
    MAGtoMLT_core Real.pi 0 = 24 ∧ ¬ MAGtoMLT_core Real.pi 0 < 24 := by
  have hpi := Real.pi_pos
  have h24 : MAGtoMLT_core Real.pi 0 = 24 := by
    unfold MAGtoMLT_core mltWrap
    rw [sub_zero]
    simp only [if_neg (lt_irrefl Real.pi),
      if_neg (show ¬ Real.pi ≤ -Real.pi by linarith)]
    field_simp
    ring
  exact ⟨h24, by rw [h24]; exact lt_irrefl 24⟩

/-- C6 (amended): for every `phi` and `phi_cds` in `(-π, π]`, the single-pass
wraparound of `delta = phi - phi_cds` (subtract `2π` where `delta > π`, then
add `2π` where the result is `≤ -π`) lands in `(-π, π]`, and the returned
MLT `= 12 + delta·24/(2π)` lies in the half-open interval `(0, 24]` — not
`[0, 24)`: the right endpoint 24 is attained. -/
theorem MAGtoMLT_range_Ioc (phi phi_cds : ℝ)
    (h1 : -Real.pi < phi) (h2 : phi ≤ Real.pi)
    (h3 : -Real.pi < phi_cds) (h4 : phi_cds ≤ Real.pi) :
    0 < MAGtoMLT_core phi phi_cds ∧ MAGtoMLT_core phi phi_cds ≤ 24 := by
  have hpi := Real.pi_pos
  unfold MAGtoMLT_core mltWrap
  by_cases hgt : phi - phi_cds > Real.pi
  · simp only [if_pos hgt,
      if_neg (show ¬ phi - phi_cds - 2 * Real.pi ≤ -Real.pi by linarith)]
    exact mlt_hours_bounds _ (by linarith) (by linarith)
  · simp only [if_neg hgt]
    by_cases hle : phi - phi_cds ≤ -Real.pi
    · simp only [if_pos hle]
      exact mlt_hours_bounds _ (by linarith) (by linarith)
    · simp only [if_neg hle]
      exact mlt_hours_bounds _ (by linarith) (by linarith)

/-- Witness for C6 at `phi = 0`, `phi_cds = 0`. -/
theorem MAGtoMLT_range_Ioc_witness :
    (-Real.pi < (0 : ℝ) ∧ (0 : ℝ) ≤ Real.pi) ∧
    0 < MAGtoMLT_core 0 0 ∧ MAGtoMLT_core 0 0 ≤ 24 := by
  have hpi := Real.pi_pos
  have h1 : -Real.pi < (0 : ℝ) := by linarith
  have h2 : (0 : ℝ) ≤ Real.pi := le_of_lt hpi
  exact ⟨⟨h1, h2⟩, MAGtoMLT_range_Ioc 0 0 h1 h2 h1 h2⟩

/-- `cos` of the degree-to-radian image of the latitude returned by `CtoS`:
`cos (π/2 - arccos (z/r)) = √(x² + y²) / r` when `r = √(x²+y²+z²) > 0`. -/
theorem cos_latitude_eq (x y z : ℝ) (hS : 0 < x ^ 2 + y ^ 2 + z ^ 2) :
    Real.cos (Real.pi / 2 - Real.arccos (z / Real.sqrt (x ^ 2 + y ^ 2 + z ^ 2)))
      = Real.sqrt (x ^ 2 + y ^ 2) / Real.sqrt (x ^ 2 + y ^ 2 + z ^ 2) := by
  have hrpos : 0 < Real.sqrt (x ^ 2 + y ^ 2 + z ^ 2) := Real.sqrt_pos.mpr hS
  have hr2 : Real.sqrt (x ^ 2 + y ^ 2 + z ^ 2) ^ 2 = x ^ 2 + y ^ 2 + z ^ 2 :=
    Real.sq_sqrt (le_of_lt hS)
  rw [Real.cos_pi_div_two_sub, Real.sin_arccos]
  have h1 : 1 - (z / Real.sqrt (x ^ 2 + y ^ 2 + z ^ 2)) ^ 2
      = (x ^ 2 + y ^ 2) / Real.sqrt (x ^ 2 + y ^ 2 + z ^ 2) ^ 2 := by
    rw [div_pow, hr2]
    field_simp
  rw [h1, Real.sqrt_div (by positivity) _, Real.sqrt_sq (le_of_lt hrpos)]

/-- C3: for every `(x, y, z)` with `r = √(x²+y²+z²) > 0`, feeding the triple
returned by `CtoS` into `StoC` reproduces `(x, y, z)` exactly over ℝ.  This
holds because `CtoS` returns the latitude and `StoC`, despite its parameter
name, consumes a latitude (see the C4 theorems). -/
theorem StoC_CtoS_round_trip (x y z : ℝ)
    (hr : 0 < Real.sqrt (x ^ 2 + y ^ 2 + z ^ 2)) :
    StoC (CtoS x y z).1 (CtoS x y z).2.1 (CtoS x y z).2.2 = (x, y, z) := by
  have hpne : Real.pi ≠ 0 := Real.pi_ne_zero
  have hS : 0 < x ^ 2 + y ^ 2 + z ^ 2 := Real.sqrt_pos.mp hr
  have hrpos : 0 < Real.sqrt (x ^ 2 + y ^ 2 + z ^ 2) := hr
  have hrne : Real.sqrt (x ^ 2 + y ^ 2 + z ^ 2) ≠ 0 := ne_of_gt hrpos
  have hr2 : Real.sqrt (x ^ 2 + y ^ 2 + z ^ 2) ^ 2 = x ^ 2 + y ^ 2 + z ^ 2 :=
    Real.sq_sqrt (le_of_lt hS)
  have hzabs : |z / Real.sqrt (x ^ 2 + y ^ 2 + z ^ 2)| ≤ 1 := by
    rw [abs_div, abs_of_pos hrpos, div_le_one hrpos]
    have hz2 : z ^ 2 ≤ x ^ 2 + y ^ 2 + z ^ 2 := by nlinarith [sq_nonneg x, sq_nonneg y]
    calc |z| = Real.sqrt (z ^ 2) := (Real.sqrt_sq_eq_abs z).symm
      _ ≤ Real.sqrt (x ^ 2 + y ^ 2 + z ^ 2) := Real.sqrt_le_sqrt hz2
  have hz1 : -1 ≤ z / Real.sqrt (x ^ 2 + y ^ 2 + z ^ 2) := (abs_le.mp hzabs).1
  have hz2 : z / Real.sqrt (x ^ 2 + y ^ 2 + z ^ 2) ≤ 1 := (abs_le.mp hzabs).2
  have hcol : Real.pi / 180 *
      (90 - 180 / Real.pi * Real.arccos (z / Real.sqrt (x ^ 2 + y ^ 2 + z ^ 2)))
      = Real.pi / 2 - Real.arccos (z / Real.sqrt (x ^ 2 + y ^ 2 + z ^ 2)) := by
    field_simp
    ring
  have hlong : Real.pi / 180 * (180 / Real.pi * atan2 y x) = atan2 y x := by
    field_simp
    ring
  unfold StoC CtoS
  simp only
  rw [hcol, hlong, cos_latitude_eq x y z hS]
  have hz3 : Real.pi / 2 -
      (Real.pi / 2 - Real.arccos (z / Real.sqrt (x ^ 2 + y ^ 2 + z ^ 2)))
      = Real.arccos (z / Real.sqrt (x ^ 2 + y ^ 2 + z ^ 2)) := by ring
  rw [hz3, Real.cos_arccos hz1 hz2]
  by_cases hxy : x = 0 ∧ y = 0
  · obtain ⟨hx0, hy0⟩ := hxy
    subst hx0
    subst hy0
    have hz0 : (⟨0, 0⟩ : ℂ) = 0 := by
      simp [Complex.ext_iff]
    have harg : atan2 0 0 = 0 := by
      unfold atan2
      rw [hz0, Complex.arg_zero]
    have hzz : Real.sqrt ((0 : ℝ) ^ 2 + 0 ^ 2) = 0 := by
      norm_num
    rw [harg, hzz]
    refine Prod.ext ?_ (Prod.ext ?_ ?_)
    · simp
    · simp
    · simp only
      rw [mul_comm, div_mul_cancel₀ z hrne]
  · have hsum : 0 < x ^ 2 + y ^ 2 := by
      rcases not_and_or.mp hxy with hx | hy
      · nlinarith [abs_pos.mpr hx, sq_abs x, sq_nonneg y]
      · nlinarith [abs_pos.mpr hy, sq_abs y, sq_nonneg x]
    have hρpos : 0 < Real.sqrt (x ^ 2 + y ^ 2) := Real.sqrt_pos.mpr hsum
    have hρne : Real.sqrt (x ^ 2 + y ^ 2) ≠ 0 := ne_of_gt hρpos
    have hcne : (⟨x, y⟩ : ℂ) ≠ 0 := by
      intro h
      exact hxy (by simpa [Complex.ext_iff] using h)
    have habs : Complex.abs ⟨x, y⟩ = Real.sqrt (x ^ 2 + y ^ 2) := by
      rw [Complex.abs_apply, Complex.normSq_mk]
      congr 1
      ring
    have hcos : Real.cos (atan2 y x) = x / Real.sqrt (x ^ 2 + y ^ 2) := by
      unfold atan2
      rw [Complex.cos_arg hcne, habs]
    have hsin : Real.sin (atan2 y x) = y / Real.sqrt (x ^ 2 + y ^ 2) := by
      unfold atan2
      rw [Complex.sin_arg, habs]
    rw [hcos, hsin]
    refine Prod.ext ?_ (Prod.ext ?_ ?_)
    · simp only
      field_simp
    · simp only
      field_simp
    · simp only
      rw [mul_comm, div_mul_cancel₀ z hrne]

/-- Witness for C3 at the concrete point `(0, 0, 1)`. -/
theorem StoC_CtoS_round_trip_witness :
    0 < Real.sqrt ((0 : ℝ) ^ 2 + 0 ^ 2 + 1 ^ 2) ∧
    StoC (CtoS 0 0 1).1 (CtoS 0 0 1).2.1 (CtoS 0 0 1).2.2 = ((0 : ℝ), (0 : ℝ), (1 : ℝ)) := by
  have h : 0 < Real.sqrt ((0 : ℝ) ^ 2 + 0 ^ 2 + 1 ^ 2) := by
    rw [show ((0 : ℝ) ^ 2 + 0 ^ 2 + 1 ^ 2) = 1 by norm_num, Real.sqrt_one]
    norm_num
  exact ⟨h, StoC_CtoS_round_trip 0 0 1 h⟩

/-- `h` extends `h0`: every buffer address valid in `h0` still reads the
same contents in `h`. -/
def HeapExtends (h0 h : Heap) : Prop :=
  h0.length ≤ h.length ∧ ∀ r : Nat, r < h0.length → readC h r = readC h0 r

/-- Every heap extends itself. -/
theorem heapExtends_refl (h : Heap) : HeapExtends h h :=
  ⟨le_refl _, fun _ _ => rfl⟩

/-- Reading below the original length is unaffected by appending a buffer. -/
theorem readC_append (h : Heap) (c : Cell) (r : Nat) (hr : r < h.length) :
    readC (h ++ [c]) r = readC h r := by
  unfold readC
  exact List.getD_append h [c] [] r hr

/-- Reading another address is unaffected by an in-place buffer write. -/
theorem readC_write_ne (h : Heap) (i : Nat) (c : Cell) (r : Nat) (hne : i ≠ r) :
    readC (writeC h i c) r = readC h r := by
  unfold readC writeC
  rw [List.getD_eq_getElem?_getD, List.getD_eq_getElem?_getD,
    List.getElem?_set_ne hne]

/-- Allocating a fresh buffer preserves heap extension. -/
theorem heapExtends_alloc (h0 h : Heap) (c : Cell) (he : HeapExtends h0 h) :
    HeapExtends h0 (h ++ [c]) := by
  refine ⟨le_trans he.1 (by simp), fun r hr => ?_⟩
  rw [readC_append h c r (lt_of_lt_of_le hr he.1)]
  exact he.2 r hr

/-- Writing to a buffer allocated after `h0` preserves heap extension. -/
theorem heapExtends_write (h0 h : Heap) (i : Nat) (c : Cell)
    (he : HeapExtends h0 h) (hi : h0.length ≤ i) :
    HeapExtends h0 (writeC h i c) := by
  refine ⟨le_trans he.1 (by simp [writeC]), fun r hr => ?_⟩
  rw [readC_write_ne h i c r (by omega)]
  exact he.2 r hr

/-- A heap extension can only grow the heap. -/
theorem heapExtends_len_le (h0 h : Heap) (he : HeapExtends h0 h) :
    h0.length ≤ h.length := he.1

/-- The final heap of `transformHeap` extends the caller's heap: every buffer
that existed before the call still holds exactly its original contents. -/
theorem transformHeap_extends (B : Backends) (doyB : Cell → List (List ℤ))
    (h0 : Heap) (vref tref : Nat) (vIs1 tIs1 : Bool) (trans ci co : String) :
    HeapExtends h0 (transformHeap B doyB h0 vref tref vIs1 tIs1 trans ci co).1 := by
  simp only [transformHeap]
  split_ifs
  all_goals dsimp only
  all_goals
    repeat
      first
      | exact heapExtends_refl h0
      | apply heapExtends_alloc
      | apply heapExtends_write
      | apply heapExtends_len_le

/-- C10: `transform` never mutates its caller's buffers.  In the heap model
of the default-backend path, after the call the caller's `v` buffer at
`vref` and time buffer at `tref` read exactly as before — `np.array` copies
its input, so the reshapes and the in-place `ctype_in='sph'` /
`ctype_out='sph'` conversions touch only buffers allocated inside the
call. -/
theorem transform_no_mutation (B : Backends) (doyB : Cell → List (List ℤ))
    (h0 : Heap) (vref tref : Nat) (vIs1 tIs1 : Bool) (trans ci co : String)
    (hv : vref < h0.length) (ht : tref < h0.length) :
    readC (transformHeap B doyB h0 vref tref vIs1 tIs1 trans ci co).1 vref
        = readC h0 vref ∧
    readC (transformHeap B doyB h0 vref tref vIs1 tIs1 trans ci co).1 tref
        = readC h0 tref := by
  have he := transformHeap_extends B doyB h0 vref tref vIs1 tIs1 trans ci co
  exact ⟨he.2 vref hv, he.2 tref ht⟩

/-- Witness for C10 on a concrete two-buffer heap with a spherical-input,
spherical-output call. -/
theorem transform_no_mutation_witness :
    ((0 : Nat) < ([[[(1 : ℚ), 2, 3]], [[2000, 1, 1]]] : Heap).length ∧
     (1 : Nat) < ([[[(1 : ℚ), 2, 3]], [[2000, 1, 1]]] : Heap).length) ∧
    (readC (transformHeap testB (fun _ => []) [[[(1 : ℚ), 2, 3]], [[2000, 1, 1]]]
        0 1 true true "GSMtoGSE" "sph" "sph").1 0
        = readC [[[(1 : ℚ), 2, 3]], [[2000, 1, 1]]] 0 ∧
     readC (transformHeap testB (fun _ => []) [[[(1 : ℚ), 2, 3]], [[2000, 1, 1]]]
        0 1 true true "GSMtoGSE" "sph" "sph").1 1
        = readC [[[(1 : ℚ), 2, 3]], [[2000, 1, 1]]] 1) := by
  refine ⟨⟨by decide, by decide⟩, ?_⟩
  exact transform_no_mutation testB (fun _ => []) [[[(1 : ℚ), 2, 3]], [[2000, 1, 1]]]
    0 1 true true "GSMtoGSE" "sph" "sph" (by decide) (by decide)

end Hxform
